import Mathlib

set_option linter.unusedVariables false

/-!
Verification of the resource-addressing and fault-containment layer of the
HiveFlow MCP server (`src/index.js`, `ReadResourceRequestSchema` handler).

The JavaScript code is shallowly embedded: JSON values become an inductive
type, JavaScript truthiness / property access / string operations are
modelled explicitly, each backend HTTP call becomes a field of a `Backend`
record mapping the request to an outcome, and thrown errors are modelled
with `Except`.
-/

/-- Decimal digits of a natural number, accumulator style; the fuel argument
makes the recursion structural so that the kernel can evaluate it. -/
def natDigitsFuel : Nat → Nat → List Char → List Char
  | 0, _, acc => acc
  | fuel+1, n, acc =>
    if n < 10 then Char.ofNat (48 + n) :: acc
    else natDigitsFuel fuel (n / 10) (Char.ofNat (48 + n % 10) :: acc)

/-- Decimal representation of a natural number. -/
def natDecimalL (n : Nat) : List Char := natDigitsFuel (n + 1) n []

/-- Decimal representation of an integer (as JavaScript prints integral numbers). -/
def intDecimalL : Int → List Char
  | .ofNat n => natDecimalL n
  | .negSucc n => '-' :: natDecimalL (n + 1)

/-- JSON model for the values exchanged with the backend (`response.data`)
and for the bodies the handler serializes.  Numbers are integral: nothing in
the layer under verification depends on float behaviour. -/
inductive Json where
  | null
  | bool (b : Bool)
  | num (n : Int)
  | str (s : String)
  | arr (elems : List Json)
  | obj (fields : List (String × Json))

/-- JavaScript truthiness of a value (`if (x)`):
null/false/0/"" are falsy, every array and object is truthy. -/
def Json.truthy : Json → Bool
  | .null => false
  | .bool b => b
  | .num n => n != 0
  | .str s => !s.data.isEmpty
  | .arr _ => true
  | .obj _ => true

/-- Escaping of one character inside a JSON string literal (quotes and
backslashes; other escapes do not occur in the strings this layer builds). -/
def escChar (c : Char) : List Char :=
  if c = '"' then ['\\', '"'] else if c = '\\' then ['\\', '\\'] else [c]

/-- Escape a character list for inclusion in a JSON string literal. -/
def escL : List Char → List Char
  | [] => []
  | c :: rest => escChar c ++ escL rest

mutual
/-- `JSON.stringify` on the JSON model, as a character list.
(The source always calls `JSON.stringify(x, null, 2)`; pretty-printing
whitespace is abstracted away uniformly.) -/
def Json.stringifyL : Json → List Char
  | .null => "null".data
  | .bool true => "true".data
  | .bool false => "false".data
  | .num n => intDecimalL n
  | .str s => '"' :: (escL s.data ++ ['"'])
  | .arr xs => '[' :: (Json.stringifyItems xs ++ [']'])
  | .obj fs => Char.ofNat 123 :: (Json.stringifyFields fs ++ [Char.ofNat 125])

/-- Comma-separated serialization of array elements. -/
def Json.stringifyItems : List Json → List Char
  | [] => []
  | [x] => Json.stringifyL x
  | x :: y :: rest => Json.stringifyL x ++ ',' :: Json.stringifyItems (y :: rest)

/-- Comma-separated serialization of object fields. -/
def Json.stringifyFields : List (String × Json) → List Char
  | [] => []
  | [(k, v)] => '"' :: (escL k.data ++ '"' :: ':' :: Json.stringifyL v)
  | (k, v) :: f :: rest =>
    ('"' :: (escL k.data ++ '"' :: ':' :: Json.stringifyL v)) ++ ',' :: Json.stringifyFields (f :: rest)
end

/-- `JSON.stringify` on the JSON model, as a string. -/
def Json.stringify (j : Json) : String := ⟨Json.stringifyL j⟩

mutual
/-- JavaScript string conversion of a value, as used by template literals and
`+` concatenation with a string: `String(x)`. -/
def Json.jsToStringL : Json → List Char
  | .null => "null".data
  | .bool true => "true".data
  | .bool false => "false".data
  | .num n => intDecimalL n
  | .str s => s.data
  | .arr xs => Json.joinL xs
  | .obj _ => "[object Object]".data

/-- `Array.prototype.toString`: elements joined by commas, with `null`
rendering as the empty string. -/
def Json.joinL : List Json → List Char
  | [] => []
  | [.null] => []
  | [x] => Json.jsToStringL x
  | .null :: y :: rest => ',' :: Json.joinL (y :: rest)
  | x :: y :: rest => Json.jsToStringL x ++ ',' :: Json.joinL (y :: rest)
end

/-- JavaScript string conversion, as a string. -/
def Json.jsToString (j : Json) : String := ⟨Json.jsToStringL j⟩

/-- Optional-chaining property access `x?.k`: `none` for a missing property
and for every non-object (including `null`), never throws. -/
def Json.get : Json → String → Option Json
  | .obj fs, k => (fs.find? (fun p => p.1 = k)).map Prod.snd
  | _, _ => none

/-- A thrown JavaScript error as far as the handler inspects it:
`error.message`, `error.code` (e.g. `ECONNREFUSED`), and `error.response`
(HTTP status together with the parsed response body), absent for pure
network errors. -/
structure JsError where
  message : String
  code : Option String
  resp : Option (Nat × Json)

/-- Plain property access `x.k`: throws a `TypeError` when `x` is `null`,
yields `undefined` (`none`) on other non-objects. -/
def Json.dotGet : Json → String → Except JsError (Option Json)
  | .null, k => .error ⟨"Cannot read properties of null (reading " ++ k ++ ")", none, none⟩
  | .obj fs, k => .ok ((fs.find? (fun p => p.1 = k)).map Prod.snd)
  | _, _ => .ok none

/-- Truthiness of a possibly-undefined value (`undefined` is falsy). -/
def truthyO : Option Json → Bool
  | none => false
  | some j => j.truthy

/-- `a || b` on possibly-undefined values. -/
def jsOr (a b : Option Json) : Option Json := if truthyO a then a else b

/-- `v || fallback` rendered as a string, as in
`prefix + (x?.message || Error-desconocido)`: the value is converted with
JavaScript string conversion when truthy, else the fallback is used. -/
def orDefaultStr (v : Option Json) (fb : String) : String :=
  match v with
  | some j => if j.truthy then j.jsToString else fb
  | none => fb

/-- `String(x)` where `x` may be `undefined`. -/
def jsToStringU : Option Json → String
  | none => "undefined"
  | some j => j.jsToString

/-! ### JavaScript string operations (modelled on character lists) -/

/-- `s.includes(pat)` on character lists. -/
def listContainsSub (pat : List Char) : List Char → Bool
  | [] => pat.isEmpty
  | c :: rest => pat.isPrefixOf (c :: rest) || listContainsSub pat rest

/-- `s.replace(pat, "")` on character lists: deletes the first occurrence of
`pat` (the handler only ever replaces with the empty string). -/
def listRemoveFirst (pat : List Char) : List Char → List Char
  | [] => []
  | c :: rest =>
    if pat.isPrefixOf (c :: rest) then (c :: rest).drop pat.length
    else c :: listRemoveFirst pat rest

/-- `s.startsWith(pat)`. -/
def jsStartsWith (s pat : String) : Bool := pat.data.isPrefixOf s.data

/-- `s.includes(pat)`. -/
def jsIncludes (s pat : String) : Bool := listContainsSub pat.data s.data

/-- `s.replace(pat, "")` (first occurrence only, as in JavaScript with a
string pattern). -/
def jsRemoveFirst (s pat : String) : String := ⟨listRemoveFirst pat.data s.data⟩

/-! ### The response normalizer `createValidResponse` -/

/-- A JavaScript value as it can reach `createValidResponse`:
a JSON value, a non-JSON object on which `JSON.stringify` throws
(cyclic structure — `unserializable`), a truthy value on which
`JSON.stringify` returns `undefined` (a function — `funcLike`),
or `undefined` itself. -/
inductive JsValue where
  | json (j : Json)
  | unserializable (cause : String)
  | funcLike
  | undefLike

/-- Truthiness of a `JsValue`. -/
def JsValue.truthy : JsValue → Bool
  | .json j => j.truthy
  | .unserializable _ => true
  | .funcLike => true
  | .undefLike => false

/-- Outcome of a `JSON.stringify` call: a string, `undefined`, or a thrown
error (carrying its message). -/
inductive SRes where
  | ok (s : String)
  | undefVal
  | thrown (msg : String)

/-- `JSON.stringify(v)` on a top-level value. -/
def stringifyTop : JsValue → SRes
  | .json j => .ok (Json.stringify j)
  | .unserializable c => .thrown c
  | .funcLike => .undefVal
  | .undefLike => .undefVal

/-- `JSON.stringify({error: errVal, uri, timestamp, data: d})`: throws when
`d` is unserializable; a `data` property holding `undefined` or a function
is omitted from the output (JavaScript semantics). -/
def stringifyEnvelope (errVal : Json) (uri ts : String) (d : JsValue) : SRes :=
  match d with
  | .json j => .ok (Json.stringify (.obj
      [("error", errVal), ("uri", .str uri), ("timestamp", .str ts), ("data", j)]))
  | .unserializable c => .thrown c
  | .funcLike => .ok (Json.stringify (.obj
      [("error", errVal), ("uri", .str uri), ("timestamp", .str ts)]))
  | .undefLike => .ok (Json.stringify (.obj
      [("error", errVal), ("uri", .str uri), ("timestamp", .str ts)]))

/-- One entry of the `contents` array of a read-resource response. -/
structure Content where
  uri : String
  mimeType : String
  text : String
deriving DecidableEq

/-- The value returned by the read-resource handler. -/
structure ReadResult where
  contents : List Content
deriving DecidableEq

/-- The serialization-failure envelope substituted when `JSON.stringify`
throws (`catch (jsonError)` in `createValidResponse`). -/
def serFailEnvelope (cause uri ts : String) : Json :=
  .obj [("error", .str ("Error al serializar datos: " ++ cause)),
        ("uri", .str uri), ("timestamp", .str ts)]

/-- The hard-coded fallback envelope substituted when the produced body is
not a non-empty string (`Respuesta vacía`). -/
def emptyRespEnvelope (uri ts : String) : Json :=
  .obj [("error", .str "Respuesta vacía"),
        ("uri", .str uri), ("timestamp", .str ts)]

/-- `createValidResponse(data, errorMsg)` from the handler (src/index.js,
lines 318–405), with `uri` and the timestamp taken from the enclosing
scope.  `errorMsg` is a JavaScript value (two call sites forward
`apiError.response.data.message` unconverted), `none` standing for the
`null` default.  The final shape re-validation of the source (line 386) is
vacuous here because the record is built with a string body by
construction. -/
def createValidResponse (uri ts : String) (data : JsValue) (errorMsg : Option Json) : ReadResult :=
  let sres :=
    if truthyO errorMsg then
      stringifyEnvelope (errorMsg.getD .null) uri ts
        (if data.truthy then data else .json .null)
    else
      stringifyTop (if data.truthy then data else .json (.arr []))
  let textOpt : Option String :=
    match sres with
    | .ok s => some s
    | .thrown c => some (Json.stringify (serFailEnvelope c uri ts))
    | .undefVal => none
  let text :=
    match textOpt with
    | some s => if s.data.isEmpty then Json.stringify (emptyRespEnvelope uri ts) else s
    | none => Json.stringify (emptyRespEnvelope uri ts)
  ⟨[⟨uri, "application/json", text⟩]⟩

/-! ### The URI router (the `switch (uri)` of the read-resource handler) -/

/-- One backend HTTP request, as issued by the handler: the flow collection,
the MCP-server collection, a per-flow process listing with limit 10 (the
aggregate loop), a per-flow process listing with limit 20 (the executions
template), or a single-flow fetch. -/
inductive Call where
  | flows
  | servers
  | processes10 (flowId : String)
  | processes20 (flowId : String)
  | flow (flowId : String)
deriving DecidableEq

/-- The backend client: for each request shape, either the parsed response
body (`response.data`) or a thrown error.  A fixed function models the
"unchanged backend" of the idempotence property: identical requests receive
identical outcomes. -/
structure Backend where
  getFlows : Except JsError Json
  getServers : Except JsError Json
  getProcesses10 : String → Except JsError Json
  getProcesses20 : String → Except JsError Json
  getFlow : String → Except JsError Json

/-- `x || []`: the value when truthy, else a fresh empty array. -/
def orEmptyArr (v : Option Json) : Json := if truthyO v then v.getD .null else .arr []

/-- `undefined` injected into `JsValue` when a lookup produced no value. -/
def jvOfOpt : Option Json → JsValue
  | none => .undefLike
  | some j => .json j

/-- `apiError.response?.data?.message`. -/
def respMessage (e : JsError) : Option Json := e.resp.bind (fun p => Json.get p.2 "message")

/-- `apiError.response?.status === 404`. -/
def respStatus404 (e : JsError) : Bool :=
  match e.resp with
  | some (s, _) => s = 404
  | none => false

/-- Generic fallback connection-error message. -/
def genericConnMsg : String := "Error de conexión con el backend"

/-- Connection-refused message of the `hiveflow://flows` literal branch. -/
def flowsRefusedMsg (baseURL : String) : String :=
  "Backend no disponible en " ++ baseURL ++ ". Asegúrate de que esté corriendo."

/-- Connection-refused message of the other branches. -/
def refusedAtMsg (baseURL : String) : String :=
  "Backend no disponible. Asegúrate de que esté corriendo en " ++ baseURL

/-- Error message of the `hiveflow://flows` literal `catch (apiError)` block:
connection refused names the base URL, otherwise a message carried in the
backend error envelope is forwarded unconverted, otherwise the generic
fallback. -/
def flowsApiErrMsg (baseURL : String) (e : JsError) : Json :=
  if e.code = some "ECONNREFUSED" then .str (flowsRefusedMsg baseURL)
  else
    match respMessage e with
    | some m => if m.truthy then m else .str genericConnMsg
    | none => .str genericConnMsg

/-- Error message of the branches that only distinguish connection refusal
(`mcp-servers`, `executions`, the executions template). -/
def simpleApiErrMsg (baseURL : String) (e : JsError) : String :=
  if e.code = some "ECONNREFUSED" then refusedAtMsg baseURL else genericConnMsg

/-- Error message of the single-flow template `catch (apiError)` block:
connection refused, then 404, then a forwarded backend message, then the
generic fallback. -/
def singleFlowApiErrMsg (baseURL flowId : String) (e : JsError) : Json :=
  if e.code = some "ECONNREFUSED" then .str (refusedAtMsg baseURL)
  else if respStatus404 e then .str ("Flujo con ID " ++ flowId ++ " no encontrado")
  else
    match respMessage e with
    | some m => if m.truthy then m else .str genericConnMsg
    | none => .str genericConnMsg

/-- One flattened execution record of the aggregate (`allExecutions.push`):
`none` when the process element is `null`, in which case the property access
in the record literal throws.  Properties holding `undefined` are omitted,
as `JSON.stringify` would drop them. -/
def mkExecRecord (flow p : Json) : Option Json :=
  match p with
  | .null => none
  | _ => some (.obj (List.filterMap (fun kv => kv.2.map (fun v => (kv.1, v)))
      [("flowId", flow.get "_id"), ("flowName", flow.get "name"),
       ("processId", p.get "processId"), ("status", p.get "status"),
       ("startTime", p.get "startTime"), ("endTime", p.get "endTime"),
       ("duration", p.get "duration")]))

/-- The `processes.forEach` push loop for one parent flow: records are
accumulated until a `null` process element throws, which aborts the rest of
this parent's records (the throw is caught by the per-parent catch). -/
def buildRecords (flow : Json) : List Json → List Json
  | [] => []
  | p :: rest =>
    match mkExecRecord flow p with
    | none => []
    | some r => r :: buildRecords flow rest

/-- Processing of one parent flow in the executions aggregate, returning the
records it contributes and the backend calls it makes.  A `null` flow throws
while the request path is interpolated, and the `catch (processError)` block
re-evaluates `flow._id` and throws again, so the error escapes the loop; for
any other flow every failure (backend error, non-array `processes`, `null`
process element) is contained by the per-parent catch. -/
def processParent (b : Backend) (flow : Json) : Except JsError (List Json) × List Call :=
  match flow.dotGet "_id" with
  | .error e => (.error e, [])
  | .ok idv =>
    let idStr := jsToStringU idv
    match b.getProcesses10 idStr with
    | .error _ => (.ok [], [.processes10 idStr])
    | .ok d =>
      if d.truthy && truthyO (d.get "success") then
        match orEmptyArr (d.get "processes") with
        | .arr ps => (.ok (buildRecords flow ps), [.processes10 idStr])
        | _ => (.ok [], [.processes10 idStr])
      else (.ok [], [.processes10 idStr])

/-- The `for (const flow of flows.slice(0, 5))` loop: parents are consulted
sequentially in list order; an error escaping one parent aborts the loop. -/
def aggLoop (b : Backend) : List Json → Except JsError (List Json) × List Call
  | [] => (.ok [], [])
  | f :: rest =>
    match processParent b f with
    | (.error e, cs) => (.error e, cs)
    | (.ok rs, cs) =>
      match aggLoop b rest with
      | (.error e, cs2) => (.error e, cs ++ cs2)
      | (.ok more, cs2) => (.ok (rs ++ more), cs ++ cs2)

/-- Result of `flows.slice(0, 5)` followed by iteration: arrays yield their
first five elements, strings their first five characters (as one-character
strings), and every other receiver throws a `TypeError`. -/
inductive SliceRes where
  | elems (l : List Json)
  | typeErr (m : String)

/-- `x.slice(0, 5)` with subsequent `for...of` iteration. -/
def jsSlice5 : Json → SliceRes
  | .arr xs => .elems (xs.take 5)
  | .str s => .elems ((s.data.take 5).map (fun c => .str ⟨[c]⟩))
  | _ => .typeErr "slice is not a function"

/-- What one routing branch hands to `createValidResponse`, plus the backend
calls it issued. -/
structure RouteOut where
  data : JsValue
  errMsg : Option Json
  calls : List Call

/-- The catalog payload of the no-match branch. -/
def catalogJson : Json :=
  .obj [("availableResources", .arr
          [.str "hiveflow://flows", .str "hiveflow://mcp-servers", .str "hiveflow://executions"]),
        ("availableTemplates", .arr
          [.str "hiveflow://flows/\x7bflowId\x7d", .str "hiveflow://flows/\x7bflowId\x7d/executions"])]

/-- The `case hiveflow://flows` branch. -/
def flowsBranch (b : Backend) (baseURL : String) : RouteOut :=
  match b.getFlows with
  | .error e => ⟨.json (.arr []), some (flowsApiErrMsg baseURL e), [.flows]⟩
  | .ok d =>
    if d.truthy && truthyO (d.get "success") then
      ⟨.json (orEmptyArr (d.get "data")), none, [.flows]⟩
    else
      ⟨.json (.arr []),
       some (.str ("No se pudieron obtener los flujos: " ++ orDefaultStr (d.get "message") "Error desconocido")),
       [.flows]⟩

/-- The `case hiveflow://mcp-servers` branch. -/
def serversBranch (b : Backend) (baseURL : String) : RouteOut :=
  match b.getServers with
  | .error e => ⟨.json (.arr []), some (.str (simpleApiErrMsg baseURL e)), [.servers]⟩
  | .ok d =>
    if d.truthy && truthyO (d.get "success") then
      ⟨.json (orEmptyArr (d.get "servers")), none, [.servers]⟩
    else
      ⟨.json (.arr []),
       some (.str ("No se pudieron obtener los servidores MCP: " ++ orDefaultStr (d.get "message") "Error desconocido")),
       [.servers]⟩

/-- The `case hiveflow://executions` aggregate branch. -/
def execBranch (b : Backend) (baseURL : String) : RouteOut :=
  match b.getFlows with
  | .error e => ⟨.json (.arr []), some (.str (simpleApiErrMsg baseURL e)), [.flows]⟩
  | .ok d =>
    if d.truthy && truthyO (d.get "success") then
      match jsSlice5 (orEmptyArr (d.get "data")) with
      | .typeErr _ => ⟨.json (.arr []), some (.str genericConnMsg), [.flows]⟩
      | .elems fs =>
        match aggLoop b fs with
        | (.ok records, cs) => ⟨.json (.arr records), none, .flows :: cs⟩
        | (.error e2, cs) =>
          ⟨.json (.arr []),
           some (.str (simpleApiErrMsg baseURL e2)), .flows :: cs⟩
    else
      ⟨.json (.arr []),
       some (.str ("No se pudieron obtener los flujos para buscar ejecuciones: " ++ orDefaultStr (d.get "message") "Error desconocido")),
       [.flows]⟩

/-- The flow identifier extracted by the executions template:
`uri.replace('hiveflow://flows/', '').replace('/executions', '')`. -/
def execTemplId (uri : String) : String :=
  jsRemoveFirst (jsRemoveFirst uri "hiveflow://flows/") "/executions"

/-- The `hiveflow://flows/{flowId}/executions` template branch. -/
def execTemplBranch (b : Backend) (baseURL uri : String) : RouteOut :=
  let flowId := execTemplId uri
  match b.getProcesses20 flowId with
  | .error e => ⟨.json (.arr []), some (.str (simpleApiErrMsg baseURL e)), [.processes20 flowId]⟩
  | .ok d =>
    if d.truthy && truthyO (d.get "success") then
      ⟨.json (orEmptyArr (d.get "processes")), none, [.processes20 flowId]⟩
    else
      ⟨.json (.arr []),
       some (.str ("No se pudieron obtener las ejecuciones del flujo " ++ flowId ++ ": "
                   ++ orDefaultStr (d.get "message") "Error desconocido")),
       [.processes20 flowId]⟩

/-- The `hiveflow://flows/{flowId}` template branch. -/
def singleFlowBranch (b : Backend) (baseURL uri : String) : RouteOut :=
  let flowId := jsRemoveFirst uri "hiveflow://flows/"
  match b.getFlow flowId with
  | .error e => ⟨.json .null, some (singleFlowApiErrMsg baseURL flowId e), [.flow flowId]⟩
  | .ok d =>
    if d.truthy && truthyO (d.get "success") then
      ⟨jvOfOpt (jsOr (d.get "data") (d.get "flow")), none, [.flow flowId]⟩
    else
      ⟨.json .null,
       some (.str ("No se pudo obtener el flujo " ++ flowId ++ ": "
                   ++ orDefaultStr (d.get "message") "Error desconocido")),
       [.flow flowId]⟩

/-- The no-match branch: a catalog payload plus a message naming the URI. -/
def catalogBranch (uri : String) : RouteOut :=
  ⟨.json catalogJson, some (.str ("Recurso no encontrado: " ++ uri)), []⟩

/-- The `switch (uri)` dispatch of the read-resource handler (src/index.js,
lines 407–577): three literal cases, then (in the `default` branch) the
executions template when the URI starts with `hiveflow://flows/` and
contains `/executions`, then the single-flow template, then the catalog. -/
def routeResource (b : Backend) (baseURL uri : String) : RouteOut :=
  if uri = "hiveflow://flows" then flowsBranch b baseURL
  else if uri = "hiveflow://mcp-servers" then serversBranch b baseURL
  else if uri = "hiveflow://executions" then execBranch b baseURL
  else if jsStartsWith uri "hiveflow://flows/" && jsIncludes uri "/executions" then
    execTemplBranch b baseURL uri
  else if jsStartsWith uri "hiveflow://flows/" && !(jsIncludes uri "/executions") then
    singleFlowBranch b baseURL uri
  else catalogBranch uri

/-- An incoming read-resource request: either `request.params` is undefined
(destructuring `{ uri }` throws, reaching the `catch (criticalError)`
boundary), or it carries a URI string. -/
inductive Request where
  | noParams
  | uri (u : String)

/-- Message of the `TypeError` raised by `const { uri } = request.params`
when `params` is undefined. -/
def destructureMsg : String :=
  "Cannot destructure property uri of request.params as it is undefined."

/-- The absolute emergency response of the `catch (criticalError)` block:
the placeholder URI, the exception message, and a timestamp. -/
def criticalResult (ts : String) : ReadResult :=
  ⟨[⟨"unknown", "application/json",
     Json.stringify (.obj [("error", .str "Error crítico en el servidor MCP"),
                           ("message", .str destructureMsg),
                           ("timestamp", .str ts)])⟩]⟩

/-- The full read-resource handler.  Every branch of the inner `switch`
returns through `createValidResponse`; with a string URI nothing in the
dispatch itself can throw (each branch catches its own backend errors), so
the inner `catch (error)` block of line 578 is unreachable and the
`catch (criticalError)` boundary is reached exactly when `request.params`
is undefined. -/
def handleReadResource (b : Backend) (baseURL ts : String) (req : Request) : ReadResult :=
  match req with
  | .noParams => criticalResult ts
  | .uri u =>
    createValidResponse u ts (routeResource b baseURL u).data (routeResource b baseURL u).errMsg

/-- The sequence of backend calls one request gives rise to, in issue order. -/
def handlerCalls (b : Backend) (baseURL : String) (req : Request) : List Call :=
  match req with
  | .noParams => []
  | .uri u => (routeResource b baseURL u).calls

/-- The JSON value whose serialization `createValidResponse` returns as the
body, in every case. -/
def cvrBody (uri ts : String) (data : JsValue) (errorMsg : Option Json) : Json :=
  if truthyO errorMsg then
    match (if data.truthy then data else .json .null) with
    | .json j => .obj [("error", errorMsg.getD .null), ("uri", .str uri),
                       ("timestamp", .str ts), ("data", j)]
    | .unserializable c => serFailEnvelope c uri ts
    | .funcLike => .obj [("error", errorMsg.getD .null), ("uri", .str uri),
                         ("timestamp", .str ts)]
    | .undefLike => .obj [("error", errorMsg.getD .null), ("uri", .str uri),
                          ("timestamp", .str ts)]
  else
    match (if data.truthy then data else .json (.arr [])) with
    | .json j => j
    | .unserializable c => serFailEnvelope c uri ts
    | .funcLike => emptyRespEnvelope uri ts
    | .undefLike => emptyRespEnvelope uri ts

/-- Erase the value of every top-level `timestamp` field (the only place a
resolution timestamp can appear in a body). -/
def scrubTop : Json → Json
  | .obj fs => .obj (fs.map (fun kv => if kv.1 = "timestamp" then (kv.1, Json.null) else kv))
  | j => j

/-- Equality of read results up to the timestamp field of the (serialized)
body: same URIs, same media types, and bodies that serialize JSON values
agreeing after the `timestamp` field is erased. -/
def eqModTs (r₁ r₂ : ReadResult) : Prop :=
  r₁.contents.map Content.uri = r₂.contents.map Content.uri ∧
  r₁.contents.map Content.mimeType = r₂.contents.map Content.mimeType ∧
  ∃ j₁ j₂ : Json,
    r₁.contents.map Content.text = [Json.stringify j₁] ∧
    r₂.contents.map Content.text = [Json.stringify j₂] ∧
    scrubTop j₁ = scrubTop j₂

/-- The records one parent flow contributes to the executions aggregate:
nothing when its child-listing call fails or its envelope is not a success
carrying an array, its (prefix of) flattened records otherwise. -/
def parentContribution (b : Backend) (f : Json) : List Json :=
  match b.getProcesses10 (jsToStringU (f.get "_id")) with
  | .error _ => []
  | .ok d =>
    if d.truthy && truthyO (d.get "success") then
      match orEmptyArr (d.get "processes") with
      | .arr ps => buildRecords f ps
      | _ => []
    else []

/-- The thrown error of a refused TCP connection, as axios surfaces it. -/
def refusedErr : JsError := ⟨"connect ECONNREFUSED 127.0.0.1:3001", some "ECONNREFUSED", none⟩

/-- A backend none of whose endpoints is reachable: every call fails with a
connection-refused error. -/
def downBackend : Backend :=
  ⟨.error refusedErr, .error refusedErr, fun _ => .error refusedErr,
   fun _ => .error refusedErr, fun _ => .error refusedErr⟩

/-- A backend with three well-formed parent flows whose second parent's
child-listing call fails (connection refused); the other parents each carry
one process. -/
def aggDemoBackend : Backend where
  getFlows := .ok (.obj [("success", .bool true), ("data", .arr
    [.obj [("_id", .str "f1"), ("name", .str "Flow 1")],
     .obj [("_id", .str "f2"), ("name", .str "Flow 2")],
     .obj [("_id", .str "f3"), ("name", .str "Flow 3")]])])
  getServers := .error refusedErr
  getProcesses10 := fun id =>
    if id = "f2" then .error refusedErr
    else .ok (.obj [("success", .bool true), ("processes", .arr
      [.obj [("processId", .str ("p-" ++ id)), ("status", .str "completed"),
             ("startTime", .str "s"), ("endTime", .str "e"), ("duration", .num 5)]])])
  getProcesses20 := fun _ => .error refusedErr
  getFlow := fun _ => .error refusedErr

/-! ### Helper lemmas -/

theorem natDigitsFuel_length_mono (fuel : Nat) :
    ∀ n acc, acc.length ≤ (natDigitsFuel fuel n acc).length := by
  induction fuel with
  | zero => intro n acc; simp [natDigitsFuel]
  | succ f ih =>
    intro n acc
    simp only [natDigitsFuel]
    split
    · simp
    · have h := ih (n / 10) (Char.ofNat (48 + n % 10) :: acc)
      simp only [List.length_cons] at h
      omega

theorem natDigitsFuel_length (fuel : Nat) (n : Nat) (acc : List Char) :
    (natDigitsFuel (fuel + 1) n acc).length ≥ acc.length + 1 := by
  simp only [natDigitsFuel]
  split
  · simp
  · have h := natDigitsFuel_length_mono fuel (n / 10) (Char.ofNat (48 + n % 10) :: acc)
    simp only [List.length_cons] at h
    omega

theorem natDecimalL_ne_nil (n : Nat) : natDecimalL n ≠ [] := by
  have h := natDigitsFuel_length n n []
  intro hc
  rw [natDecimalL] at hc
  rw [hc] at h
  simp at h

theorem intDecimalL_ne_nil (n : Int) : intDecimalL n ≠ [] := by
  cases n with
  | ofNat m => exact natDecimalL_ne_nil m
  | negSucc m => simp [intDecimalL]

theorem stringifyL_ne_nil (j : Json) : Json.stringifyL j ≠ [] := by
  cases j with
  | null => simp [Json.stringifyL]
  | bool b => cases b <;> simp [Json.stringifyL]
  | num n => simpa [Json.stringifyL] using intDecimalL_ne_nil n
  | str s => simp [Json.stringifyL]
  | arr xs => simp [Json.stringifyL]
  | obj fs => simp [Json.stringifyL]

theorem stringify_ne_empty (j : Json) : Json.stringify j ≠ "" := by
  intro h
  exact stringifyL_ne_nil j (congrArg String.data h)

theorem stringify_isEmpty_false (j : Json) : (Json.stringify j).data.isEmpty = false := by
  have h := stringifyL_ne_nil j
  cases hl : Json.stringifyL j with
  | nil => exact absurd hl h
  | cons c rest => simp [Json.stringify, hl]

theorem mk_data (s : String) : String.mk s.data = s := by cases s; rfl

theorem str_append_truthy (a b : String) (h : a.data ≠ []) :
    Json.truthy (.str (a ++ b)) = true := by
  simp only [Json.truthy, String.data_append]
  cases ha : a.data with
  | nil => exact absurd ha h
  | cons c r => simp

theorem isPrefixOf_append_self (l t : List Char) : l.isPrefixOf (l ++ t) = true := by
  rw [List.isPrefixOf_iff_prefix]
  exact List.prefix_append l t

theorem listContainsSub_here (pat ys : List Char) (hp : pat ≠ []) :
    listContainsSub pat (pat ++ ys) = true := by
  cases pat with
  | nil => exact absurd rfl hp
  | cons c pr =>
    show listContainsSub (c :: pr) (c :: (pr ++ ys)) = true
    have h1 : (c :: pr).isPrefixOf ((c :: pr) ++ ys) = true := isPrefixOf_append_self _ _
    simp only [listContainsSub, Bool.or_eq_true]
    exact Or.inl (by simp only [List.cons_append] at h1; exact h1)

theorem listContainsSub_append (xs pat ys : List Char) (hp : pat ≠ []) :
    listContainsSub pat (xs ++ (pat ++ ys)) = true := by
  induction xs with
  | nil => simpa using listContainsSub_here pat ys hp
  | cons c rest ih =>
    show listContainsSub pat (c :: (rest ++ (pat ++ ys))) = true
    simp only [listContainsSub, Bool.or_eq_true]
    exact Or.inr ih

theorem jsStartsWith_append (p rest : String) : jsStartsWith (p ++ rest) p = true := by
  simp [jsStartsWith, String.data_append, isPrefixOf_append_self]

theorem jsIncludes_append (x pat y : String) (hp : pat.data ≠ []) :
    jsIncludes (x ++ (pat ++ y)) pat = true := by
  simp only [jsIncludes, String.data_append]
  exact listContainsSub_append x.data pat.data y.data hp

theorem ne_of_startsWith (u lit p : String)
    (h1 : jsStartsWith u p = true) (h2 : jsStartsWith lit p = false) : u ≠ lit := by
  intro he
  rw [he, h2] at h1
  cases h1

theorem listRemoveFirst_self (pat rest : List Char) :
    listRemoveFirst pat (pat ++ rest) = rest := by
  cases pat with
  | nil => cases rest <;> simp [listRemoveFirst, List.isPrefixOf]
  | cons c pr =>
    show listRemoveFirst (c :: pr) (c :: (pr ++ rest)) = rest
    have h1 : (c :: pr).isPrefixOf (c :: (pr ++ rest)) = true := by
      have h0 := isPrefixOf_append_self (c :: pr) rest
      simp only [List.cons_append] at h0
      exact h0
    simp only [listRemoveFirst, h1, if_true]
    rw [← List.cons_append]
    exact List.drop_left _ _

theorem listRemoveFirst_slashfree (pr : List Char) :
    ∀ xs, (∀ c ∈ xs, c ≠ '/') → listRemoveFirst ('/' :: pr) (xs ++ ('/' :: pr)) = xs := by
  intro xs
  induction xs with
  | nil => simpa using listRemoveFirst_self ('/' :: pr) []
  | cons c rest ih =>
    intro h
    have hc : c ≠ '/' := h c (List.mem_cons_self c rest)
    show listRemoveFirst ('/' :: pr) (c :: (rest ++ ('/' :: pr))) = c :: rest
    have hnp : ('/' :: pr).isPrefixOf (c :: (rest ++ ('/' :: pr))) = false := by
      simp only [List.isPrefixOf, Bool.and_eq_false_iff]
      left
      simp only [beq_eq_false_iff_ne, ne_eq]
      exact fun he => hc he.symm
    simp only [listRemoveFirst, hnp]
    rw [if_neg Bool.false_ne_true]
    exact congrArg (List.cons c) (ih (fun d hd => h d (List.mem_cons_of_mem c hd)))

theorem jsRemoveFirst_of_append (p rest : String) : jsRemoveFirst (p ++ rest) p = rest := by
  simp [jsRemoveFirst, String.data_append, listRemoveFirst_self, mk_data]

theorem execTemplId_clean (id : String) (h : ∀ c ∈ id.data, c ≠ '/') :
    execTemplId ("hiveflow://flows/" ++ id ++ "/executions") = id := by
  unfold execTemplId
  rw [String.append_assoc, jsRemoveFirst_of_append]
  show jsRemoveFirst (id ++ "/executions") "/executions" = id
  unfold jsRemoveFirst
  rw [String.data_append]
  have hpat : "/executions".data = '/' :: "executions".data := rfl
  rw [hpat, listRemoveFirst_slashfree "executions".data id.data h, mk_data]

theorem stringify_data_ne_nil (j : Json) : (Json.stringify j).data ≠ [] :=
  stringifyL_ne_nil j

theorem createValidResponse_eq (uri ts : String) (data : JsValue) (errorMsg : Option Json) :
    createValidResponse uri ts data errorMsg =
      ⟨[⟨uri, "application/json", Json.stringify (cvrBody uri ts data errorMsg)⟩]⟩ := by
  unfold createValidResponse cvrBody
  cases htr : truthyO errorMsg
  · cases data with
    | json j =>
      cases hj : j.truthy <;>
        simp [stringifyTop, JsValue.truthy, hj, htr, stringify_data_ne_nil, stringify_isEmpty_false]
    | unserializable c =>
      simp [stringifyTop, JsValue.truthy, htr, stringify_data_ne_nil, stringify_isEmpty_false]
    | funcLike => simp [stringifyTop, JsValue.truthy, htr]
    | undefLike =>
      simp [stringifyTop, JsValue.truthy, htr, stringify_data_ne_nil, stringify_isEmpty_false]
  · cases data with
    | json j =>
      cases hj : j.truthy <;>
        simp [stringifyEnvelope, JsValue.truthy, hj, htr, stringify_data_ne_nil,
              stringify_isEmpty_false]
    | unserializable c =>
      simp [stringifyEnvelope, JsValue.truthy, htr, stringify_data_ne_nil, stringify_isEmpty_false]
    | funcLike =>
      simp [stringifyEnvelope, JsValue.truthy, htr, stringify_data_ne_nil, stringify_isEmpty_false]
    | undefLike =>
      simp [stringifyEnvelope, JsValue.truthy, htr, stringify_data_ne_nil, stringify_isEmpty_false]

theorem handleReadResource_uri (b : Backend) (baseURL ts u : String) :
    handleReadResource b baseURL ts (.uri u) =
      ⟨[⟨u, "application/json",
         Json.stringify (cvrBody u ts (routeResource b baseURL u).data
                                      (routeResource b baseURL u).errMsg)⟩]⟩ := by
  unfold handleReadResource
  exact createValidResponse_eq u ts _ _

theorem cvrBody_scrub (uri : String) (d : JsValue) (m : Option Json) (ts₁ ts₂ : String) :
    scrubTop (cvrBody uri ts₁ d m) = scrubTop (cvrBody uri ts₂ d m) := by
  unfold cvrBody serFailEnvelope emptyRespEnvelope
  cases htr : truthyO m
  · cases d with
    | json j => cases hj : j.truthy <;> simp [JsValue.truthy, hj, scrubTop]
    | unserializable c => simp [JsValue.truthy, scrubTop]
    | funcLike => simp [JsValue.truthy, scrubTop]
    | undefLike => simp [JsValue.truthy, scrubTop]
  · cases d with
    | json j => cases hj : j.truthy <;> simp [JsValue.truthy, hj, scrubTop]
    | unserializable c => simp [JsValue.truthy, scrubTop]
    | funcLike => simp [JsValue.truthy, scrubTop]
    | undefLike => simp [JsValue.truthy, scrubTop]

theorem startsWith_flows_lit : jsStartsWith "hiveflow://flows" "hiveflow://flows/" = false := by
  decide

theorem startsWith_servers_lit :
    jsStartsWith "hiveflow://mcp-servers" "hiveflow://flows/" = false := by
  decide

theorem startsWith_exec_lit :
    jsStartsWith "hiveflow://executions" "hiveflow://flows/" = false := by
  decide

theorem route_execTempl (b : Backend) (baseURL uri : String)
    (h1 : jsStartsWith uri "hiveflow://flows/" = true)
    (h2 : jsIncludes uri "/executions" = true) :
    routeResource b baseURL uri = execTemplBranch b baseURL uri := by
  unfold routeResource
  rw [if_neg (ne_of_startsWith uri _ _ h1 startsWith_flows_lit),
      if_neg (ne_of_startsWith uri _ _ h1 startsWith_servers_lit),
      if_neg (ne_of_startsWith uri _ _ h1 startsWith_exec_lit),
      if_pos (by rw [h1, h2]; rfl)]

theorem route_single (b : Backend) (baseURL uri : String)
    (h1 : jsStartsWith uri "hiveflow://flows/" = true)
    (h2 : jsIncludes uri "/executions" = false) :
    routeResource b baseURL uri = singleFlowBranch b baseURL uri := by
  unfold routeResource
  rw [if_neg (ne_of_startsWith uri _ _ h1 startsWith_flows_lit),
      if_neg (ne_of_startsWith uri _ _ h1 startsWith_servers_lit),
      if_neg (ne_of_startsWith uri _ _ h1 startsWith_exec_lit),
      if_neg (by rw [h1, h2]; simp),
      if_pos (by rw [h1, h2]; rfl)]

theorem route_catalog (b : Backend) (baseURL uri : String)
    (hne1 : uri ≠ "hiveflow://flows")
    (hne2 : uri ≠ "hiveflow://mcp-servers")
    (hne3 : uri ≠ "hiveflow://executions")
    (h1 : jsStartsWith uri "hiveflow://flows/" = false) :
    routeResource b baseURL uri = catalogBranch uri := by
  unfold routeResource
  rw [if_neg hne1, if_neg hne2, if_neg hne3,
      if_neg (by rw [h1]; simp), if_neg (by rw [h1]; simp)]

theorem execTemplBranch_calls (b : Backend) (baseURL uri : String) :
    (execTemplBranch b baseURL uri).calls = [.processes20 (execTemplId uri)] := by
  unfold execTemplBranch
  cases hm : b.getProcesses20 (execTemplId uri) with
  | error e => simp only [hm]
  | ok d =>
    simp only [hm]
    split <;> rfl

theorem str_truthy_of_ne (s : String) (h : s.data ≠ []) : Json.truthy (.str s) = true := by
  show (!s.data.isEmpty) = true
  cases hs : s.data with
  | nil => exact absurd hs h
  | cons c rest => rfl

theorem data_ne_nil_of_ne_empty (s : String) (h : s ≠ "") : s.data ≠ [] := by
  intro hc
  apply h
  cases s
  cases hc
  rfl

theorem append_data_ne_nil_left (a b : String) (ha : a.data ≠ []) : (a ++ b).data ≠ [] := by
  rw [String.data_append]
  intro h
  exact ha (List.append_eq_nil.mp h).1

theorem listContainsSub_nil_pat : ∀ l : List Char, listContainsSub [] l = true := by
  intro l
  cases l <;> simp [listContainsSub, List.isPrefixOf]

theorem listContainsSub_append2 (xs pat ys : List Char) :
    listContainsSub pat (xs ++ (pat ++ ys)) = true := by
  cases hp : pat with
  | nil => exact listContainsSub_nil_pat _
  | cons c pr => exact listContainsSub_append xs (c :: pr) ys (by simp)

theorem jsIncludes_mid (x pat y : String) : jsIncludes (x ++ (pat ++ y)) pat = true := by
  simp only [jsIncludes, String.data_append]
  exact listContainsSub_append2 x.data pat.data y.data

theorem jsIncludes_suffix (x pat : String) : jsIncludes (x ++ pat) pat = true := by
  simp only [jsIncludes, String.data_append]
  have h := listContainsSub_append2 x.data pat.data []
  simpa using h

theorem cvrBody_err (uri ts : String) (j : Json) (m : Json) (hm : m.truthy = true) :
    cvrBody uri ts (.json j) (some m) =
      .obj [("error", m), ("uri", .str uri), ("timestamp", .str ts),
            ("data", if j.truthy then j else .null)] := by
  unfold cvrBody
  rw [show truthyO (some m) = true from hm, if_pos rfl]
  cases hj : j.truthy <;> simp [JsValue.truthy, hj]

theorem cvrBody_ok (uri ts : String) (j : Json) (hj : j.truthy = true) :
    cvrBody uri ts (.json j) none = j := by
  unfold cvrBody
  simp [truthyO, JsValue.truthy, hj]

theorem jsToStringU_str (s : String) : jsToStringU (some (.str s)) = s := by
  cases s
  rfl

theorem processParent_obj (b : Backend) (f : Json) (id nm : String)
    (hf : f = .obj [("_id", .str id), ("name", .str nm)]) :
    processParent b f =
      (.ok (parentContribution b f), [.processes10 (jsToStringU (f.get "_id"))]) := by
  subst hf
  unfold processParent parentContribution
  have hdg : Json.dotGet (.obj [("_id", .str id), ("name", .str nm)]) "_id" =
      .ok (Json.get (.obj [("_id", .str id), ("name", .str nm)]) "_id") := rfl
  rw [hdg]
  cases hm : b.getProcesses10 (jsToStringU (Json.get (.obj [("_id", .str id), ("name", .str nm)]) "_id")) with
  | error e => simp [hm]
  | ok d =>
    simp only [hm]
    split
    · split <;> rfl
    · rfl

theorem aggLoop_wf (b : Backend) :
    ∀ L : List Json, (∀ f ∈ L, ∃ id nm, f = .obj [("_id", .str id), ("name", .str nm)]) →
      aggLoop b L =
        (.ok (L.flatMap (parentContribution b)),
         L.map (fun f => .processes10 (jsToStringU (f.get "_id")))) := by
  intro L
  induction L with
  | nil => intro h; rfl
  | cons f rest ih =>
    intro h
    obtain ⟨id, nm, hfeq⟩ := h f (List.mem_cons_self f rest)
    have hpp := processParent_obj b f id nm hfeq
    have hrest := ih (fun g hg => h g (List.mem_cons_of_mem f hg))
    unfold aggLoop
    rw [hpp, hrest]
    simp

theorem execBranch_wf (b : Backend) (baseURL : String) (flows : List Json)
    (hf : b.getFlows = .ok (.obj [("success", .bool true), ("data", .arr flows)]))
    (hwf : ∀ f ∈ flows.take 5, ∃ id nm, f = .obj [("_id", .str id), ("name", .str nm)]) :
    execBranch b baseURL =
      ⟨.json (.arr ((flows.take 5).flatMap (parentContribution b))), none,
       .flows :: (flows.take 5).map (fun f => .processes10 (jsToStringU (f.get "_id")))⟩ := by
  unfold execBranch
  rw [hf]
  dsimp only
  have hcond : ((Json.obj [("success", .bool true), ("data", .arr flows)]).truthy &&
      truthyO ((Json.obj [("success", .bool true), ("data", .arr flows)]).get "success")) = true := by
    simp [Json.truthy, Json.get, truthyO, List.find?]
  rw [if_pos hcond]
  have hdata : orEmptyArr ((Json.obj [("success", .bool true), ("data", .arr flows)]).get "data") =
      .arr flows := by
    simp [Json.get, orEmptyArr, truthyO, Json.truthy, List.find?]
  rw [hdata]
  rw [show jsSlice5 (.arr flows) = .elems (flows.take 5) from rfl]
  dsimp only
  rw [aggLoop_wf b (flows.take 5) hwf]

theorem route_flows_lit (b : Backend) (baseURL : String) :
    routeResource b baseURL "hiveflow://flows" = flowsBranch b baseURL := by
  unfold routeResource
  rw [if_pos rfl]

theorem route_servers_lit (b : Backend) (baseURL : String) :
    routeResource b baseURL "hiveflow://mcp-servers" = serversBranch b baseURL := by
  unfold routeResource
  rw [if_neg (by decide), if_pos rfl]

theorem route_exec_lit (b : Backend) (baseURL : String) :
    routeResource b baseURL "hiveflow://executions" = execBranch b baseURL := by
  unfold routeResource
  rw [if_neg (by decide), if_neg (by decide), if_pos rfl]

theorem simpleApiErrMsg_refused (baseURL : String) (e : JsError)
    (hc : e.code = some "ECONNREFUSED") : simpleApiErrMsg baseURL e = refusedAtMsg baseURL := by
  unfold simpleApiErrMsg
  rw [hc, if_pos rfl]

theorem singleFlowApiErrMsg_refused (baseURL flowId : String) (e : JsError)
    (hc : e.code = some "ECONNREFUSED") :
    singleFlowApiErrMsg baseURL flowId e = .str (refusedAtMsg baseURL) := by
  unfold singleFlowApiErrMsg
  rw [hc, if_pos rfl]

theorem flowsBranch_refused (b : Backend) (baseURL : String) (e : JsError)
    (hf : b.getFlows = .error e) (hc : e.code = some "ECONNREFUSED") :
    flowsBranch b baseURL = ⟨.json (.arr []), some (.str (flowsRefusedMsg baseURL)), [.flows]⟩ := by
  unfold flowsBranch
  rw [hf]
  dsimp only
  unfold flowsApiErrMsg
  rw [hc, if_pos rfl]

theorem serversBranch_err (b : Backend) (baseURL : String) (e : JsError)
    (hs : b.getServers = .error e) :
    serversBranch b baseURL =
      ⟨.json (.arr []), some (.str (simpleApiErrMsg baseURL e)), [.servers]⟩ := by
  unfold serversBranch
  rw [hs]

theorem execBranch_err (b : Backend) (baseURL : String) (e : JsError)
    (hf : b.getFlows = .error e) :
    execBranch b baseURL =
      ⟨.json (.arr []), some (.str (simpleApiErrMsg baseURL e)), [.flows]⟩ := by
  unfold execBranch
  rw [hf]

theorem execTemplBranch_err (b : Backend) (baseURL uri : String) (e : JsError)
    (hp : b.getProcesses20 (execTemplId uri) = .error e) :
    execTemplBranch b baseURL uri =
      ⟨.json (.arr []), some (.str (simpleApiErrMsg baseURL e)),
       [.processes20 (execTemplId uri)]⟩ := by
  unfold execTemplBranch
  dsimp only
  rw [hp]

theorem singleFlowBranch_err (b : Backend) (baseURL uri : String) (e : JsError)
    (hfl : b.getFlow (jsRemoveFirst uri "hiveflow://flows/") = .error e) :
    singleFlowBranch b baseURL uri =
      ⟨.json .null, some (singleFlowApiErrMsg baseURL (jsRemoveFirst uri "hiveflow://flows/") e),
       [.flow (jsRemoveFirst uri "hiveflow://flows/")]⟩ := by
  unfold singleFlowBranch
  dsimp only
  rw [hfl]

theorem refusedAtMsg_truthy (baseURL : String) :
    Json.truthy (.str (refusedAtMsg baseURL)) = true :=
  str_truthy_of_ne _ (append_data_ne_nil_left _ _ (by decide))

theorem flowsRefusedMsg_truthy (baseURL : String) :
    Json.truthy (.str (flowsRefusedMsg baseURL)) = true :=
  str_truthy_of_ne _
    (append_data_ne_nil_left _ _ (append_data_ne_nil_left _ _ (by decide)))

theorem flowsRefusedMsg_mentions (baseURL : String) :
    jsIncludes (flowsRefusedMsg baseURL) baseURL = true := by
  unfold flowsRefusedMsg
  rw [String.append_assoc]
  exact jsIncludes_mid _ _ _

theorem refusedAtMsg_mentions (baseURL : String) :
    jsIncludes (refusedAtMsg baseURL) baseURL = true :=
  jsIncludes_suffix _ _

/-! ### Claims -/

/-- C1: for every request (including one with `params` missing) and every
backend behaviour — success, `success:false` envelopes, thrown network/HTTP
errors, malformed payloads of any JSON shape — the read-resource handler
returns a normalized content record: exactly one content, carrying the
requested URI (the placeholder `unknown` when the URI is not available),
the `application/json` media type, and a non-empty body that is the
serialization of a JSON value; when `request.params` is missing the body is
the last-resort envelope built from the exception message and the
timestamp.  No exception escapes the handler: in the embedding it is a
total function into `ReadResult`. -/
theorem c1_handler_never_throws (b : Backend) (baseURL ts : String) (req : Request) :
    ∃ j : Json,
      handleReadResource b baseURL ts req =
        ⟨[⟨(match req with | .noParams => "unknown" | .uri u => u),
           "application/json", Json.stringify j⟩]⟩ ∧
      Json.stringify j ≠ "" ∧
      (req = .noParams →
        handleReadResource b baseURL ts req =
          ⟨[⟨"unknown", "application/json",
             Json.stringify (.obj [("error", .str "Error crítico en el servidor MCP"),
                                   ("message", .str destructureMsg),
                                   ("timestamp", .str ts)])⟩]⟩) := by
  cases req with
  | noParams =>
    exact ⟨.obj [("error", .str "Error crítico en el servidor MCP"),
                 ("message", .str destructureMsg), ("timestamp", .str ts)],
           rfl, stringify_ne_empty _, fun _ => rfl⟩
  | uri u =>
    refine ⟨_, handleReadResource_uri b baseURL ts u, stringify_ne_empty _, ?_⟩
    intro h
    exact Request.noConfusion h

theorem c1_handler_never_throws_witness :
    handleReadResource downBackend "http://localhost:3001" "2025-01-01T00:00:00.000Z" .noParams =
      ⟨[⟨"unknown", "application/json",
         Json.stringify (.obj [("error", .str "Error crítico en el servidor MCP"),
                               ("message", .str destructureMsg),
                               ("timestamp", .str "2025-01-01T00:00:00.000Z")])⟩]⟩ := by
  obtain ⟨j, h1, h2, h3⟩ :=
    c1_handler_never_throws downBackend "http://localhost:3001" "2025-01-01T00:00:00.000Z" .noParams
  exact h3 rfl

/-- C2: the response normalizer is a total function: for every data value
(including unserializable ones and ones `JSON.stringify` maps to
`undefined`) and every error message value, it returns one content record
whose body is the non-empty serialization of a JSON value; when
serialization of the primary body throws, the serialization-failure
envelope is substituted, and when the produced body is not a non-empty
string (the `funcLike` success path), the hard-coded `Respuesta vacía`
fallback envelope is substituted. -/
theorem c2_normalizer_total (uri ts : String) (data : JsValue) (errorMsg : Option Json) :
    (∃ j : Json,
      createValidResponse uri ts data errorMsg =
        ⟨[⟨uri, "application/json", Json.stringify j⟩]⟩ ∧ Json.stringify j ≠ "") ∧
    (∀ cause, data = .unserializable cause →
      createValidResponse uri ts data errorMsg =
        ⟨[⟨uri, "application/json", Json.stringify (serFailEnvelope cause uri ts)⟩]⟩) ∧
    (truthyO errorMsg = false → data = .funcLike →
      createValidResponse uri ts data errorMsg =
        ⟨[⟨uri, "application/json", Json.stringify (emptyRespEnvelope uri ts)⟩]⟩) := by
  refine ⟨⟨_, createValidResponse_eq uri ts data errorMsg, stringify_ne_empty _⟩, ?_, ?_⟩
  · intro cause hc
    subst hc
    rw [createValidResponse_eq]
    have hb : cvrBody uri ts (.unserializable cause) errorMsg = serFailEnvelope cause uri ts := by
      unfold cvrBody
      cases truthyO errorMsg <;> simp [JsValue.truthy]
    rw [hb]
  · intro hm hf
    subst hf
    rw [createValidResponse_eq]
    have hb : cvrBody uri ts .funcLike errorMsg = emptyRespEnvelope uri ts := by
      unfold cvrBody
      rw [hm]
      simp [JsValue.truthy]
    rw [hb]

theorem c2_normalizer_total_witness :
    createValidResponse "hiveflow://flows" "T" (.unserializable "Converting circular structure to JSON") none =
      ⟨[⟨"hiveflow://flows", "application/json",
         Json.stringify (serFailEnvelope "Converting circular structure to JSON" "hiveflow://flows" "T")⟩]⟩ :=
  (c2_normalizer_total "hiveflow://flows" "T"
    (.unserializable "Converting circular structure to JSON") none).2.1 _ rfl

/-- C9: resolving the same URI twice against an unchanged backend (modelled
as a fixed function from requests to outcomes, so identical requests get
identical responses) yields structurally identical normalized content up to
the timestamp field of the body: same URI, same media type, and bodies that
are serializations of JSON values agreeing once the `timestamp` field is
erased.  Only the timestamps of the two resolutions may differ. -/
theorem c9_idempotence_mod_timestamp (b : Backend) (baseURL : String) (req : Request)
    (ts₁ ts₂ : String) :
    eqModTs (handleReadResource b baseURL ts₁ req) (handleReadResource b baseURL ts₂ req) := by
  cases req with
  | noParams =>
    refine ⟨rfl, rfl,
      .obj [("error", .str "Error crítico en el servidor MCP"),
            ("message", .str destructureMsg), ("timestamp", .str ts₁)],
      .obj [("error", .str "Error crítico en el servidor MCP"),
            ("message", .str destructureMsg), ("timestamp", .str ts₂)],
      rfl, rfl, ?_⟩
    simp [scrubTop]
  | uri u =>
    rw [handleReadResource_uri b baseURL ts₁ u, handleReadResource_uri b baseURL ts₂ u]
    exact ⟨rfl, rfl, _, _, rfl, rfl, cvrBody_scrub u _ _ ts₁ ts₂⟩

/-- C10: executions-template matching is substring-based, not suffix-based.
Every URI that starts with `hiveflow://flows/` and contains `/executions`
anywhere is routed to the executions-template branch, issuing exactly one
child-listing call whose flow identifier is obtained by deleting the prefix
and then the first occurrence of the substring `/executions` — e.g.
`hiveflow://flows/abc/executionsXYZ` issues a call for `abcXYZ`, and
`hiveflow://flows//executions` one for the empty identifier (see the
witness). -/
theorem c10_substring_template_match (b : Backend) (baseURL uri : String)
    (h1 : jsStartsWith uri "hiveflow://flows/" = true)
    (h2 : jsIncludes uri "/executions" = true) :
    handlerCalls b baseURL (.uri uri) =
      [.processes20 (jsRemoveFirst (jsRemoveFirst uri "hiveflow://flows/") "/executions")] := by
  show (routeResource b baseURL uri).calls =
    [.processes20 (jsRemoveFirst (jsRemoveFirst uri "hiveflow://flows/") "/executions")]
  rw [route_execTempl b baseURL uri h1 h2]
  exact execTemplBranch_calls b baseURL uri

theorem c10_substring_template_match_witness :
    handlerCalls downBackend "http://localhost:3001" (.uri "hiveflow://flows/abc/executionsXYZ") =
      [.processes20 "abcXYZ"] ∧
    handlerCalls downBackend "http://localhost:3001" (.uri "hiveflow://flows//executions") =
      [.processes20 ""] := by
  constructor
  · have h := c10_substring_template_match downBackend "http://localhost:3001"
      "hiveflow://flows/abc/executionsXYZ" (by decide) (by decide)
    exact h.trans (by decide)
  · have h := c10_substring_template_match downBackend "http://localhost:3001"
      "hiveflow://flows//executions" (by decide) (by decide)
    exact h.trans (by decide)

/-- C4 fails on the code: for `hiveflow://flows//executions` the remainder
after removing `/executions` is empty, yet the URI does not fall through to
the single-entity template — the handler issues the child-listing call with
the empty identifier instead of a single-flow fetch. -/
theorem c4_counterexample_empty_remainder :
    handlerCalls downBackend "http://localhost:3001" (.uri "hiveflow://flows//executions") =
      [.processes20 ""] ∧
    handlerCalls downBackend "http://localhost:3001" (.uri "hiveflow://flows//executions") ≠
      [.flow "/executions"] := by
  constructor
  · decide
  · decide

/-- C4 (amended): a URI starting with `hiveflow://flows/` and containing
`/executions` matches the executions template even when the identifier
remainder is empty: `hiveflow://flows//executions` issues exactly one
child-listing call for the empty identifier and never falls through to the
single-entity template, whatever the backend does. -/
theorem c4_empty_remainder_still_executions (b : Backend) (baseURL : String) :
    handlerCalls b baseURL (.uri "hiveflow://flows//executions") = [.processes20 ""] := by
  show (routeResource b baseURL "hiveflow://flows//executions").calls = [.processes20 ""]
  rw [route_execTempl b baseURL _ (by decide) (by decide), execTemplBranch_calls]
  rw [show execTemplId "hiveflow://flows//executions" = "" from by decide]

/-- C5 fails on the code as universally stated: for the non-empty identifier
`a/executionsb`, the URI `hiveflow://flows/a/executionsb/executions` is
routed to the executions template, but the single child-listing call is
scoped to `ab/executions` (the first occurrence of `/executions` is deleted
from the middle of the identifier), not to the identifier itself. -/
theorem c5_counterexample_mangled_identifier :
    handlerCalls downBackend "http://localhost:3001"
        (.uri "hiveflow://flows/a/executionsb/executions") = [.processes20 "ab/executions"] ∧
    handlerCalls downBackend "http://localhost:3001"
        (.uri "hiveflow://flows/a/executionsb/executions") ≠ [.processes20 "a/executionsb"] := by
  constructor
  · decide
  · decide

/-- C5 (amended): for every non-empty identifier containing no `/`
character, the URI `hiveflow://flows/<id>/executions` resolves via the
executions template — issuing exactly one child-listing call scoped to that
identifier — and never via the single-entity template (literal addresses,
tested first, cannot match such a URI). -/
theorem c5_template_precedence (b : Backend) (baseURL id : String)
    (hne : id ≠ "") (hslash : ∀ c ∈ id.data, c ≠ '/') :
    handlerCalls b baseURL (.uri ("hiveflow://flows/" ++ id ++ "/executions")) =
      [.processes20 id] := by
  have h1 : jsStartsWith ("hiveflow://flows/" ++ id ++ "/executions") "hiveflow://flows/" = true := by
    rw [String.append_assoc]
    exact jsStartsWith_append _ _
  have h2 : jsIncludes ("hiveflow://flows/" ++ id ++ "/executions") "/executions" = true :=
    jsIncludes_suffix _ _
  show (routeResource b baseURL ("hiveflow://flows/" ++ id ++ "/executions")).calls =
    [.processes20 id]
  rw [route_execTempl b baseURL _ h1 h2, execTemplBranch_calls, execTemplId_clean id hslash]

theorem c5_template_precedence_witness :
    handlerCalls downBackend "http://localhost:3001" (.uri "hiveflow://flows/123/executions") =
      [.processes20 "123"] := by
  have h := c5_template_precedence downBackend "http://localhost:3001" "123"
    (by decide) (by decide)
  have he : "hiveflow://flows/" ++ "123" ++ "/executions" = "hiveflow://flows/123/executions" := by
    decide
  rw [he] at h
  exact h

/-- C3 fails on the code: the literal collection branches pass `[]` — which
is truthy in JavaScript — as the data argument, so `data || null` keeps the
empty array and the error envelope carries `data: []`, not `data: null`.
Concretely, resolving `hiveflow://flows` against a connection-refused
backend yields the envelope with `data: []`, which differs from the
`data: null` envelope the claim prescribes. -/
theorem c3_counterexample_data_empty_array :
    handleReadResource downBackend "http://localhost:3001" "T" (.uri "hiveflow://flows") =
      ⟨[⟨"hiveflow://flows", "application/json",
         Json.stringify (.obj [("error", .str (flowsRefusedMsg "http://localhost:3001")),
                               ("uri", .str "hiveflow://flows"), ("timestamp", .str "T"),
                               ("data", .arr [])])⟩]⟩ ∧
    Json.stringify (.obj [("error", .str (flowsRefusedMsg "http://localhost:3001")),
                          ("uri", .str "hiveflow://flows"), ("timestamp", .str "T"),
                          ("data", .arr [])]) ≠
      Json.stringify (.obj [("error", .str (flowsRefusedMsg "http://localhost:3001")),
                            ("uri", .str "hiveflow://flows"), ("timestamp", .str "T"),
                            ("data", .null)]) := by
  constructor
  · decide
  · decide

/-- C3 (amended): for an error outcome with a non-empty message the body is
the serialized envelope `{error: message, uri, timestamp, data: d}` where
`d` is the normalizer's data argument when that argument is truthy and
`null` otherwise; the collection branches pass the (truthy) empty array and
so produce `data: []`, while the single-entity template and internal-error
paths pass `null` and produce `data: null`. -/
theorem c3_error_envelope_data_field (uri ts m : String) (hm : m ≠ "") (j : Json) :
    createValidResponse uri ts (.json j) (some (.str m)) =
      ⟨[⟨uri, "application/json",
         Json.stringify (.obj [("error", .str m), ("uri", .str uri), ("timestamp", .str ts),
                               ("data", if j.truthy then j else .null)])⟩]⟩ := by
  rw [createValidResponse_eq,
      cvrBody_err uri ts j (.str m) (str_truthy_of_ne m (data_ne_nil_of_ne_empty m hm))]

theorem c3_error_envelope_data_field_witness :
    createValidResponse "hiveflow://flows/x" "T" (.json .null) (some (.str "boom")) =
      ⟨[⟨"hiveflow://flows/x", "application/json",
         Json.stringify (.obj [("error", .str "boom"), ("uri", .str "hiveflow://flows/x"),
                               ("timestamp", .str "T"), ("data", .null)])⟩]⟩ := by
  have h := c3_error_envelope_data_field "hiveflow://flows/x" "T" "boom" (by decide) .null
  exact h.trans (by decide)

/-- C6: every URI that matches neither a literal address nor a template
(it differs from the three literals and does not start with the
`hiveflow://flows/` prefix) resolves, without any backend call, to a body
whose `data` payload is the catalog enumerating the three literal addresses
and the two templates, paired with an error message naming the unresolved
URI. -/
theorem c6_unknown_uri_catalog (b : Backend) (baseURL ts uri : String)
    (h1 : uri ≠ "hiveflow://flows") (h2 : uri ≠ "hiveflow://mcp-servers")
    (h3 : uri ≠ "hiveflow://executions")
    (h4 : jsStartsWith uri "hiveflow://flows/" = false) :
    handleReadResource b baseURL ts (.uri uri) =
      ⟨[⟨uri, "application/json",
         Json.stringify (.obj [("error", .str ("Recurso no encontrado: " ++ uri)),
                               ("uri", .str uri), ("timestamp", .str ts),
                               ("data", catalogJson)])⟩]⟩ ∧
    handlerCalls b baseURL (.uri uri) = [] := by
  have hr := route_catalog b baseURL uri h1 h2 h3 h4
  constructor
  · rw [handleReadResource_uri b baseURL ts uri, hr]
    show (⟨[⟨uri, "application/json",
             Json.stringify (cvrBody uri ts (.json catalogJson)
               (some (.str ("Recurso no encontrado: " ++ uri))))⟩]⟩ : ReadResult) = _
    rw [cvrBody_err uri ts catalogJson (.str ("Recurso no encontrado: " ++ uri))
        (str_truthy_of_ne _ (append_data_ne_nil_left _ _ (by decide)))]
    rfl
  · show (routeResource b baseURL uri).calls = []
    rw [hr]
    rfl

set_option maxRecDepth 4096 in
theorem c6_unknown_uri_catalog_witness :
    handleReadResource downBackend "http://localhost:3001" "T" (.uri "hiveflow://bogus") =
      ⟨[⟨"hiveflow://bogus", "application/json",
         Json.stringify (.obj [("error", .str "Recurso no encontrado: hiveflow://bogus"),
                               ("uri", .str "hiveflow://bogus"), ("timestamp", .str "T"),
                               ("data", catalogJson)])⟩]⟩ := by
  have h := (c6_unknown_uri_catalog downBackend "http://localhost:3001" "T" "hiveflow://bogus"
    (by decide) (by decide) (by decide) (by decide)).1
  exact h.trans (by decide)

/-- C8: against a backend all of whose endpoints fail with a
connection-refused error, every literal address and every template resolves
to an error-envelope body whose `error` field mentions the configured base
URL: the `flows` literal yields its dedicated refused message, the other
two literals and the executions template yield the shared refused message
(all with `data: []`), and the single-entity template yields the shared
refused message with `data: null`. -/
theorem c8_connection_refused_mentions_base_url (b : Backend) (baseURL ts : String)
    (e : JsError) (hc : e.code = some "ECONNREFUSED")
    (hf : b.getFlows = .error e) (hs : b.getServers = .error e)
    (hp20 : ∀ id, b.getProcesses20 id = .error e)
    (hfl : ∀ id, b.getFlow id = .error e) :
    (handleReadResource b baseURL ts (.uri "hiveflow://flows") =
       ⟨[⟨"hiveflow://flows", "application/json",
          Json.stringify (.obj [("error", .str (flowsRefusedMsg baseURL)),
                                ("uri", .str "hiveflow://flows"), ("timestamp", .str ts),
                                ("data", .arr [])])⟩]⟩ ∧
     jsIncludes (flowsRefusedMsg baseURL) baseURL = true) ∧
    (handleReadResource b baseURL ts (.uri "hiveflow://mcp-servers") =
       ⟨[⟨"hiveflow://mcp-servers", "application/json",
          Json.stringify (.obj [("error", .str (refusedAtMsg baseURL)),
                                ("uri", .str "hiveflow://mcp-servers"), ("timestamp", .str ts),
                                ("data", .arr [])])⟩]⟩ ∧
     jsIncludes (refusedAtMsg baseURL) baseURL = true) ∧
    (handleReadResource b baseURL ts (.uri "hiveflow://executions") =
       ⟨[⟨"hiveflow://executions", "application/json",
          Json.stringify (.obj [("error", .str (refusedAtMsg baseURL)),
                                ("uri", .str "hiveflow://executions"), ("timestamp", .str ts),
                                ("data", .arr [])])⟩]⟩) ∧
    (∀ id, handleReadResource b baseURL ts (.uri ("hiveflow://flows/" ++ id ++ "/executions")) =
       ⟨[⟨"hiveflow://flows/" ++ id ++ "/executions", "application/json",
          Json.stringify (.obj [("error", .str (refusedAtMsg baseURL)),
                                ("uri", .str ("hiveflow://flows/" ++ id ++ "/executions")),
                                ("timestamp", .str ts), ("data", .arr [])])⟩]⟩) ∧
    (∀ id, jsIncludes ("hiveflow://flows/" ++ id) "/executions" = false →
       handleReadResource b baseURL ts (.uri ("hiveflow://flows/" ++ id)) =
         ⟨[⟨"hiveflow://flows/" ++ id, "application/json",
            Json.stringify (.obj [("error", .str (refusedAtMsg baseURL)),
                                  ("uri", .str ("hiveflow://flows/" ++ id)),
                                  ("timestamp", .str ts), ("data", .null)])⟩]⟩) := by
  refine ⟨⟨?_, flowsRefusedMsg_mentions baseURL⟩, ⟨?_, refusedAtMsg_mentions baseURL⟩,
          ?_, ?_, ?_⟩
  · rw [handleReadResource_uri, route_flows_lit, flowsBranch_refused b baseURL e hf hc]
    show (⟨[⟨_, _, Json.stringify (cvrBody "hiveflow://flows" ts (.json (.arr []))
        (some (.str (flowsRefusedMsg baseURL))))⟩]⟩ : ReadResult) = _
    rw [cvrBody_err _ _ _ _ (flowsRefusedMsg_truthy baseURL)]
    rfl
  · rw [handleReadResource_uri, route_servers_lit, serversBranch_err b baseURL e hs,
        simpleApiErrMsg_refused baseURL e hc]
    show (⟨[⟨_, _, Json.stringify (cvrBody "hiveflow://mcp-servers" ts (.json (.arr []))
        (some (.str (refusedAtMsg baseURL))))⟩]⟩ : ReadResult) = _
    rw [cvrBody_err _ _ _ _ (refusedAtMsg_truthy baseURL)]
    rfl
  · rw [handleReadResource_uri, route_exec_lit, execBranch_err b baseURL e hf,
        simpleApiErrMsg_refused baseURL e hc]
    show (⟨[⟨_, _, Json.stringify (cvrBody "hiveflow://executions" ts (.json (.arr []))
        (some (.str (refusedAtMsg baseURL))))⟩]⟩ : ReadResult) = _
    rw [cvrBody_err _ _ _ _ (refusedAtMsg_truthy baseURL)]
    rfl
  · intro id
    have h1 : jsStartsWith ("hiveflow://flows/" ++ id ++ "/executions") "hiveflow://flows/" = true := by
      rw [String.append_assoc]
      exact jsStartsWith_append _ _
    have h2 : jsIncludes ("hiveflow://flows/" ++ id ++ "/executions") "/executions" = true :=
      jsIncludes_suffix _ _
    rw [handleReadResource_uri, route_execTempl b baseURL _ h1 h2,
        execTemplBranch_err b baseURL _ e (hp20 _),
        simpleApiErrMsg_refused baseURL e hc]
    show (⟨[⟨_, _, Json.stringify (cvrBody ("hiveflow://flows/" ++ id ++ "/executions") ts
        (.json (.arr [])) (some (.str (refusedAtMsg baseURL))))⟩]⟩ : ReadResult) = _
    rw [cvrBody_err _ _ _ _ (refusedAtMsg_truthy baseURL)]
    rfl
  · intro id hninc
    have h1 : jsStartsWith ("hiveflow://flows/" ++ id) "hiveflow://flows/" = true :=
      jsStartsWith_append _ _
    rw [handleReadResource_uri, route_single b baseURL _ h1 hninc,
        singleFlowBranch_err b baseURL _ e (hfl _),
        singleFlowApiErrMsg_refused baseURL _ e hc]
    show (⟨[⟨_, _, Json.stringify (cvrBody ("hiveflow://flows/" ++ id) ts
        (.json .null) (some (.str (refusedAtMsg baseURL))))⟩]⟩ : ReadResult) = _
    rw [cvrBody_err _ _ _ _ (refusedAtMsg_truthy baseURL)]
    rfl

theorem c8_connection_refused_mentions_base_url_witness :
    (handleReadResource downBackend "http://localhost:3001" "T" (.uri "hiveflow://flows") =
       ⟨[⟨"hiveflow://flows", "application/json",
          Json.stringify (.obj [("error", .str (flowsRefusedMsg "http://localhost:3001")),
                                ("uri", .str "hiveflow://flows"), ("timestamp", .str "T"),
                                ("data", .arr [])])⟩]⟩ ∧
     jsIncludes (flowsRefusedMsg "http://localhost:3001") "http://localhost:3001" = true) ∧
    (handleReadResource downBackend "http://localhost:3001" "T"
        (.uri ("hiveflow://flows/" ++ "123")) =
       ⟨[⟨"hiveflow://flows/" ++ "123", "application/json",
          Json.stringify (.obj [("error", .str (refusedAtMsg "http://localhost:3001")),
                                ("uri", .str ("hiveflow://flows/" ++ "123")),
                                ("timestamp", .str "T"), ("data", .null)])⟩]⟩) := by
  obtain ⟨p1, p2, p3, p4, p5⟩ := c8_connection_refused_mentions_base_url downBackend
    "http://localhost:3001" "T" refusedErr rfl rfl rfl (fun _ => rfl) (fun _ => rfl)
  exact ⟨p1, p5 "123" (by decide)⟩

/-- C7: when the flow listing succeeds with an array of well-formed parent
flows, the global execution-history literal consults at most the first 5
parents in list order, issues exactly one child-listing call per consulted
parent (sequentially, in that order, after the initial flow-listing call),
and returns the in-order concatenation of each parent's flattened records,
each record tagged with its parent's identifier and name; a parent whose
child-listing call fails contributes nothing — `parentContribution` is `[]`
on a failed call — and never causes an overall failure.  The witness
instantiates the spec's example: 3 parents with the 2nd parent's lookup
failing yields only parents 1 and 3's children. -/
theorem c7_aggregate_partial_failure (b : Backend) (baseURL ts : String) (flows : List Json)
    (hf : b.getFlows = .ok (.obj [("success", .bool true), ("data", .arr flows)]))
    (hwf : ∀ f ∈ flows.take 5, ∃ id nm, f = .obj [("_id", .str id), ("name", .str nm)]) :
    handleReadResource b baseURL ts (.uri "hiveflow://executions") =
      ⟨[⟨"hiveflow://executions", "application/json",
         Json.stringify (.arr ((flows.take 5).flatMap (parentContribution b)))⟩]⟩ ∧
    handlerCalls b baseURL (.uri "hiveflow://executions") =
      .flows :: (flows.take 5).map (fun f => .processes10 (jsToStringU (f.get "_id"))) := by
  have hexec := execBranch_wf b baseURL flows hf hwf
  constructor
  · rw [handleReadResource_uri, route_exec_lit, hexec]
    show (⟨[⟨_, _, Json.stringify (cvrBody "hiveflow://executions" ts
        (.json (.arr ((flows.take 5).flatMap (parentContribution b)))) none)⟩]⟩ : ReadResult) = _
    rw [cvrBody_ok "hiveflow://executions" ts
        (.arr ((flows.take 5).flatMap (parentContribution b))) rfl]
  · show (routeResource b baseURL "hiveflow://executions").calls = _
    rw [route_exec_lit, hexec]

set_option maxRecDepth 4096 in
theorem c7_aggregate_partial_failure_witness :
    handleReadResource aggDemoBackend "http://localhost:3001" "T" (.uri "hiveflow://executions") =
      ⟨[⟨"hiveflow://executions", "application/json",
         Json.stringify (.arr
           [.obj [("flowId", .str "f1"), ("flowName", .str "Flow 1"),
                  ("processId", .str "p-f1"), ("status", .str "completed"),
                  ("startTime", .str "s"), ("endTime", .str "e"), ("duration", .num 5)],
            .obj [("flowId", .str "f3"), ("flowName", .str "Flow 3"),
                  ("processId", .str "p-f3"), ("status", .str "completed"),
                  ("startTime", .str "s"), ("endTime", .str "e"), ("duration", .num 5)]])⟩]⟩ ∧
    handlerCalls aggDemoBackend "http://localhost:3001" (.uri "hiveflow://executions") =
      [.flows, .processes10 "f1", .processes10 "f2", .processes10 "f3"] := by
  have h := c7_aggregate_partial_failure aggDemoBackend "http://localhost:3001" "T"
    [.obj [("_id", .str "f1"), ("name", .str "Flow 1")],
     .obj [("_id", .str "f2"), ("name", .str "Flow 2")],
     .obj [("_id", .str "f3"), ("name", .str "Flow 3")]]
    rfl
    (by
      intro f hfm
      simp at hfm
      rcases hfm with h | h | h <;> exact ⟨_, _, h⟩)
  exact ⟨h.1.trans (by decide), h.2.trans (by decide)⟩
